import Mathlib

/-!
Shallow embedding of the bulk-indexing buffer of kthomas/go-elasticsearchutil.

The embedding follows the current revision of `indexer.go` (the olivere/elastic
v7 revision: buffered channel of size 64, `time.Ticker` flush timer), together
with `elastic.go` (`GetClient`) and `utils.go` (`stringOrNil`).

Modelling notes:
- Go pointers that may be nil (`*MessageHeader`, `*string`, `*elastic.Client`,
  a nil `chan bool`) become `Option`.
- The `elastic.BulkService` is modelled by the list of bulk index requests it
  currently holds; `NumberOfActions()` is its length.
- The remote elasticsearch backend is opaque; it is a parameter
  `backend : Backend` mapping the submitted batch to a bulk response or a
  transport error.
- Observation (ghost) fields record what the code does to collaborators that
  have no other footprint in the state: `tickerResets` counts calls to
  `queueFlushTicker.Reset`, `flushCalls` counts invocations of
  `esBulkServiceFlush`, and `submitted` records every batch handed to the
  backend (`BulkService.Do`), in order.
- The instance identifier (a base64-encoded random UUID in Go) is a parameter:
  it only appears in log and error text.
- Machine integers: `queueSizeInBytes` is a Go `int` holding sums of payload
  lengths; it is modelled as `Nat` (the code zeroes it whenever it would reach
  the configured batch size, so it never approaches 2^63).
-/

namespace ElasticsearchUtil

/-- Opaque handle standing for `*elastic.Client`. -/
abbrev Client := Unit

/-- `MessageHeader` carries elasticsearch metadata for a payload
(`ID *string`, `Index *string`). -/
structure MessageHeader where
  id : Option String
  index : Option String
deriving DecidableEq, Repr

/-- `Message`: `Header *MessageHeader` (nil pointer becomes `none`) and
`Payload []byte`. -/
structure Message where
  header : Option MessageHeader
  payload : List UInt8
deriving DecidableEq, Repr

/-- One `elastic.BulkIndexRequest`: built as
`NewBulkIndexRequest().Index(*index).Doc(string(msg.Payload))`, with `.Id`
set when the header carries one. -/
structure BulkIndexRequest where
  index : String
  id : Option String
  doc : List UInt8
deriving DecidableEq, Repr

/-- One item of an `elastic.BulkResponse`. -/
structure BulkResponseItem where
  id : String
  index : String
  status : Nat
  error : Option String
deriving DecidableEq, Repr

/-- The decoded `elastic.BulkResponse` (`Took`, `Items`). -/
structure BulkResponse where
  took : Nat
  items : List BulkResponseItem
deriving DecidableEq, Repr

/-- The opaque remote backend: submitting a batch either yields a decoded
bulk response or fails with a transport error (the `error` returned by
`BulkService.Do`). -/
def Backend : Type := List BulkIndexRequest → Except String BulkResponse

/-- Configuration of the indexer. The current revision reads the package
constant `defaultElasticsearchIndexerMaxBatchSizeBytes` where the earlier
revision read the package variable `elasticMaxBatchSizeBytes`; both are a
single configured byte bound, modelled as this parameter. -/
structure Config where
  maxBatchSizeBytes : Nat
deriving DecidableEq, Repr

def defaultElasticsearchIndexerBufferedChannelSize : Nat := 64

def defaultElasticsearchIndexerMaxBatchIntervalMillis : Nat := 10000

def defaultElasticsearchIndexerMaxBatchSizeBytes : Nat := 1024 * 10

def defaultElasticsearchIndexerSleepIntervalMillis : Nat := 1000

/-- The configuration the current revision actually runs with. -/
def defaultConfig : Config :=
  { maxBatchSizeBytes := defaultElasticsearchIndexerMaxBatchSizeBytes }

/-- State of one `Indexer` instance. `q` holds the contents of the inbound
buffered channel; `shutdown` is `none` while the Go `chan bool` is nil and
`some sigs` (pending signals) once initialized; the remaining fields are the
batch, its tracked byte size, and the observation fields described above. -/
structure IndexerState where
  identifier : String
  client : Option Client
  q : List Message
  qClosed : Bool
  esBulkService : List BulkIndexRequest
  queueSizeInBytes : Nat
  shutdown : Option (List Bool)
  tickerStopped : Bool
  tickerResets : Nat
  flushCalls : Nat
  submitted : List (List BulkIndexRequest)
deriving DecidableEq, Repr

/-- `stringOrNil` from `utils.go`: the given string, or nil when empty. -/
def stringOrNil (str : String) : Option String :=
  if str = "" then none else some str

/-- `GetClient` from `elastic.go`: the first configured elasticsearch client,
or an error when none are configured. -/
def GetClient (elasticClients : List Client) : Except String Client :=
  match elasticClients with
  | [] => Except.error "failed to retrieve elasticsearch client"
  | c :: _ => Except.ok c

/-- `NewIndexer`: fresh instance with an empty buffered queue and an empty
bulk service. The Go code assigns `indexer.client, _ = GetClient()`,
discarding the error, and never assigns the `shutdown` field, which therefore
keeps its zero value: a nil channel (`none` here). -/
def newIndexer (identifier : String) (elasticClients : List Client) : IndexerState :=
  { identifier := identifier
    client := (GetClient elasticClients).toOption
    q := []
    qClosed := false
    esBulkService := []
    queueSizeInBytes := 0
    shutdown := none
    tickerStopped := false
    tickerResets := 0
    flushCalls := 0
    submitted := [] }

/-- `Q`: sends the message on the inbound channel and returns nil; the current
revision performs no validation here. (Blocking when the 64-slot buffer is
full is not modelled; no claim concerns a full queue.) -/
def Q (s : IndexerState) (msg : Message) : IndexerState × Option String :=
  ({ s with q := s.q ++ [msg] }, none)

/-- `Stop`: `indexer.shutdown <- true`. A send on a nil Go channel blocks
forever, which the embedding renders as `none`; on an initialized channel the
signal is appended. -/
def stopSend (s : IndexerState) : Option IndexerState :=
  match s.shutdown with
  | none => none
  | some sigs => some { s with shutdown := some (sigs ++ [true]) }

/-- The error text of an empty flush. -/
def nothingQueuedMsg (identifier : String) : String :=
  "indexer (" ++ identifier ++
    ") attempted to send Elasticsearch bulk index request, but nothing was queued"

/-- Modelled from the spec: `elastic.BulkService.Do` is library code outside
this repository (the spec treats the backend as an opaque remote operation).
Per the spec, the backend-side bulk-request builder is unconditionally
cleared/reset after a flush attempt, success or failure; so the call returns
the backend's verdict on the submitted requests together with the builder's
new (empty) contents. -/
def bulkServiceDo (backend : Backend) (reqs : List BulkIndexRequest) :
    List BulkIndexRequest × Except String BulkResponse :=
  ([], backend reqs)

/-- `esBulkServiceFlush`: under the flush mutex, zero the tracked byte total,
return the "nothing was queued" error when no actions are pending, otherwise
submit the batch via `BulkService.Do` and pass its response or error through.
Returns the new state together with Go's `(*elastic.BulkResponse, error)`
pair. -/
def esBulkServiceFlush (backend : Backend) (s : IndexerState) :
    IndexerState × Option BulkResponse × Option String :=
  let s0 := { s with queueSizeInBytes := 0, flushCalls := s.flushCalls + 1 }
  if s0.esBulkService.length = 0 then
    (s0, none, some (nothingQueuedMsg s0.identifier))
  else
    match bulkServiceDo backend s0.esBulkService with
    | (reqs2, Except.ok response) =>
      ({ s0 with esBulkService := reqs2,
                 submitted := s0.submitted ++ [s0.esBulkService] },
       some response, none)
    | (reqs2, Except.error e) =>
      ({ s0 with esBulkService := reqs2,
                 submitted := s0.submitted ++ [s0.esBulkService] },
       none, some e)

/-- The bulk index request built from a validated message. -/
def mkBulkIndexRequest (idx : String) (header : MessageHeader) (payload : List UInt8) :
    BulkIndexRequest :=
  { index := idx, id := header.id, doc := payload }

/-- `index`: when the tracked byte total is zero, reset the flush ticker
(before any validation); reject a nil header or nil index with a descriptive
error; when the existing byte total plus this payload's size reaches the
configured maximum batch size, flush first; finally add the request to the
bulk service and add the payload size to the byte total. -/
def index (cfg : Config) (backend : Backend) (s : IndexerState) (msg : Message) :
    IndexerState × Option String :=
  let s1 := if s.queueSizeInBytes = 0
    then { s with tickerResets := s.tickerResets + 1 }
    else s
  match msg.header with
  | none =>
    (s1, some ("failed to index " ++ toString msg.payload.length ++
      "-byte message; no header provided"))
  | some header =>
    match header.index with
    | none =>
      (s1, some ("failed to index " ++ toString msg.payload.length ++
        "-byte message; no index provided in header"))
    | some idx =>
      let size := msg.payload.length
      let s2 := if s1.queueSizeInBytes + size ≥ cfg.maxBatchSizeBytes
        then (esBulkServiceFlush backend s1).1
        else s1
      ({ s2 with
          esBulkService := s2.esBulkService ++ [mkBulkIndexRequest idx header msg.payload],
          queueSizeInBytes := s2.queueSizeInBytes + size }, none)

/-- Handling of one message delivered on the inbound channel inside `Run`:
the code reads `msg.Header.Index` unconditionally, so a nil header is a nil
pointer dereference (`none`, a panic); a nil index is logged and dropped (the
state is unchanged); otherwise `index` runs and its error is discarded. -/
def runRecvMsg (cfg : Config) (backend : Backend) (s : IndexerState) (msg : Message) :
    Option IndexerState :=
  match msg.header with
  | none => none
  | some header =>
    match header.index with
    | some _ => some (index cfg backend s msg).1
    | none => some s

/-- `cleanup`: stop the flush ticker and close the inbound channel. -/
def cleanup (s : IndexerState) : IndexerState :=
  { s with tickerStopped := true, qClosed := true }

/-- The four events of the `select` in `Run`, plus the `default` branch. -/
inductive WorkerEvent where
  | recv (msg : Message)
  | closed
  | tick
  | shutdownSig
  | idle
deriving DecidableEq, Repr

/-- Outcome of one `select` iteration of `Run`: continue the loop, return
from `Run`, or panic. -/
inductive StepOut where
  | next (s : IndexerState)
  | ret (s : IndexerState)
  | panicked
deriving DecidableEq, Repr

/-- One iteration of the `Run` loop of the current revision. On `recv` the
message is popped and handled; on a closed channel the code only logs (its
`return nil` is commented out) and the loop continues; on a ticker fire it
flushes; on a shutdown signal it consumes the signal, cleans up, flushes once
and returns; the `default` branch sleeps. -/
def runStep (cfg : Config) (backend : Backend) (s : IndexerState) :
    WorkerEvent → StepOut
  | WorkerEvent.recv msg =>
    match runRecvMsg cfg backend { s with q := s.q.drop 1 } msg with
    | none => StepOut.panicked
    | some s2 => StepOut.next s2
  | WorkerEvent.closed => StepOut.next s
  | WorkerEvent.tick => StepOut.next (esBulkServiceFlush backend s).1
  | WorkerEvent.shutdownSig =>
    let s1 := cleanup { s with shutdown := s.shutdown.map (List.drop 1) }
    StepOut.ret (esBulkServiceFlush backend s1).1
  | WorkerEvent.idle => StepOut.next s

/-- Which `select` branches are ready in a given state. A receive on the nil
(`none`) shutdown channel never becomes ready; a receive on an initialized
channel is ready only when a signal is pending. -/
def eventEnabled (s : IndexerState) : WorkerEvent → Bool
  | WorkerEvent.recv msg => (!s.qClosed) && decide (s.q.head? = some msg)
  | WorkerEvent.closed => s.qClosed && s.q.isEmpty
  | WorkerEvent.tick => !s.tickerStopped
  | WorkerEvent.shutdownSig =>
    match s.shutdown with
    | some (_ :: _) => true
    | _ => false
  | WorkerEvent.idle => true

/-- States reachable from `s₁` by worker-loop iterations that continue the
loop, interleaved with producer calls to `Q`. -/
inductive Reachable (cfg : Config) (backend : Backend) : IndexerState → IndexerState → Prop
  | refl (s : IndexerState) : Reachable cfg backend s s
  | step {s₁ s₂ s₃ : IndexerState} (e : WorkerEvent) :
      Reachable cfg backend s₁ s₂ → runStep cfg backend s₂ e = StepOut.next s₃ →
      Reachable cfg backend s₁ s₃
  | enq {s₁ s₂ : IndexerState} (msg : Message) :
      Reachable cfg backend s₁ s₂ → Reachable cfg backend s₁ (Q s₂ msg).1

/-- A backend that accepts every batch; used for concrete test runs. -/
def okBackend : Backend := fun _ => Except.ok { took := 0, items := [] }

/-- A valid message header targeting the index "idx". -/
def validHeader : MessageHeader := { id := none, index := some "idx" }

/-- A valid message whose payload is 40 bytes. -/
def fortyByteMsg : Message :=
  { header := some validHeader, payload := List.replicate 40 0 }

/-- Configuration with a 100-byte maximum batch size (the end-to-end scenario
of the spec). -/
def cfg100 : Config := { maxBatchSizeBytes := 100 }

/-- Fresh instance used as the starting state of concrete runs. -/
def s0 : IndexerState := newIndexer "indexer-1" [()]

/-- State after the first 40-byte message. -/
def c3s1 : IndexerState := (index cfg100 okBackend s0 fortyByteMsg).1

/-- State after the second 40-byte message. -/
def c3s2 : IndexerState := (index cfg100 okBackend c3s1 fortyByteMsg).1

/-- State after the third 40-byte message. -/
def c3s3 : IndexerState := (index cfg100 okBackend c3s2 fortyByteMsg).1

/-- The construction described by the spec (stated from the spec's words for
comparison with `newIndexer`): failure to obtain a connection handle is fatal
to construction, the provider's error propagates and no instance is
returned. -/
def newIndexerSpecDescribed (identifier : String) (elasticClients : List Client) :
    Except String IndexerState :=
  match GetClient elasticClients with
  | Except.error e => Except.error e
  | Except.ok c =>
    Except.ok { newIndexer identifier elasticClients with client := some c }

/- Helper lemmas (field bookkeeping shared by the claim theorems). -/

theorem esBulkServiceFlush_untouched (backend : Backend) (s : IndexerState) :
    ((esBulkServiceFlush backend s).1).shutdown = s.shutdown ∧
    ((esBulkServiceFlush backend s).1).q = s.q ∧
    ((esBulkServiceFlush backend s).1).qClosed = s.qClosed ∧
    ((esBulkServiceFlush backend s).1).tickerStopped = s.tickerStopped ∧
    ((esBulkServiceFlush backend s).1).tickerResets = s.tickerResets ∧
    ((esBulkServiceFlush backend s).1).identifier = s.identifier := by
  unfold esBulkServiceFlush bulkServiceDo
  by_cases h : s.esBulkService.length = 0 <;>
    simp only [h, if_true, if_false, reduceIte] <;>
    cases backend s.esBulkService <;> simp

theorem esBulkServiceFlush_clears (backend : Backend) (s : IndexerState) :
    ((esBulkServiceFlush backend s).1).esBulkService = [] ∧
    ((esBulkServiceFlush backend s).1).queueSizeInBytes = 0 ∧
    ((esBulkServiceFlush backend s).1).flushCalls = s.flushCalls + 1 := by
  unfold esBulkServiceFlush bulkServiceDo
  by_cases h : s.esBulkService.length = 0
  · simp [h, List.length_eq_zero.mp h]
  · simp only [h, if_true, if_false, reduceIte]
    cases backend s.esBulkService <;> simp

theorem esBulkServiceFlush_empty (backend : Backend) (s : IndexerState)
    (h : s.esBulkService = []) :
    esBulkServiceFlush backend s =
      ({ s with queueSizeInBytes := 0, flushCalls := s.flushCalls + 1 },
       none, some (nothingQueuedMsg s.identifier)) := by
  unfold esBulkServiceFlush bulkServiceDo
  simp [h]

theorem index_noHeader (cfg : Config) (backend : Backend) (s : IndexerState)
    (msg : Message) (hh : msg.header = none) :
    index cfg backend s msg =
      (if s.queueSizeInBytes = 0
        then { s with tickerResets := s.tickerResets + 1 } else s,
       some ("failed to index " ++ toString msg.payload.length ++
         "-byte message; no header provided")) := by
  unfold index
  simp only [hh]

theorem index_noIndex (cfg : Config) (backend : Backend) (s : IndexerState)
    (msg : Message) (hd : MessageHeader)
    (hh : msg.header = some hd) (hi : hd.index = none) :
    index cfg backend s msg =
      (if s.queueSizeInBytes = 0
        then { s with tickerResets := s.tickerResets + 1 } else s,
       some ("failed to index " ++ toString msg.payload.length ++
         "-byte message; no index provided in header")) := by
  unfold index
  simp only [hh, hi]

/-- Proof-side shorthand for the timer-arming step at the top of `index`. -/
def armTicker (s : IndexerState) : IndexerState :=
  if s.queueSizeInBytes = 0 then { s with tickerResets := s.tickerResets + 1 } else s

theorem armTicker_fields (s : IndexerState) :
    (armTicker s).queueSizeInBytes = s.queueSizeInBytes ∧
    (armTicker s).esBulkService = s.esBulkService ∧
    (armTicker s).flushCalls = s.flushCalls ∧
    (armTicker s).submitted = s.submitted ∧
    (armTicker s).identifier = s.identifier := by
  unfold armTicker
  split <;> exact ⟨rfl, rfl, rfl, rfl, rfl⟩

theorem index_result (cfg : Config) (backend : Backend) (s : IndexerState)
    (msg : Message) (hd : MessageHeader) (idx : String)
    (hh : msg.header = some hd) (hi : hd.index = some idx) :
    index cfg backend s msg =
      (let s2 := if (armTicker s).queueSizeInBytes + msg.payload.length
          ≥ cfg.maxBatchSizeBytes
        then (esBulkServiceFlush backend (armTicker s)).1
        else armTicker s
       ({ s2 with
           esBulkService := s2.esBulkService ++ [mkBulkIndexRequest idx hd msg.payload],
           queueSizeInBytes := s2.queueSizeInBytes + msg.payload.length }, none)) := by
  unfold index armTicker
  simp only [hh, hi]

theorem index_valid_general (cfg : Config) (backend : Backend) (s : IndexerState)
    (msg : Message) (hd : MessageHeader) (idx : String)
    (hh : msg.header = some hd) (hi : hd.index = some idx) :
    (index cfg backend s msg).2 = none ∧
    (s.queueSizeInBytes + msg.payload.length ≥ cfg.maxBatchSizeBytes →
      (index cfg backend s msg).1.esBulkService
        = [mkBulkIndexRequest idx hd msg.payload] ∧
      (index cfg backend s msg).1.queueSizeInBytes = msg.payload.length ∧
      (index cfg backend s msg).1.flushCalls = s.flushCalls + 1) ∧
    (s.queueSizeInBytes + msg.payload.length < cfg.maxBatchSizeBytes →
      (index cfg backend s msg).1.esBulkService
        = s.esBulkService ++ [mkBulkIndexRequest idx hd msg.payload] ∧
      (index cfg backend s msg).1.queueSizeInBytes
        = s.queueSizeInBytes + msg.payload.length ∧
      (index cfg backend s msg).1.flushCalls = s.flushCalls) := by
  obtain ⟨ha1, ha2, ha3, ha4, ha5⟩ := armTicker_fields s
  rw [index_result cfg backend s msg hd idx hh hi]
  refine ⟨rfl, ?_, ?_⟩
  · intro hge
    have hC : (armTicker s).queueSizeInBytes + msg.payload.length
        ≥ cfg.maxBatchSizeBytes := by
      rw [ha1]
      exact hge
    dsimp only
    rw [if_pos hC]
    obtain ⟨hc1, hc2, hc3⟩ := esBulkServiceFlush_clears backend (armTicker s)
    refine ⟨?_, ?_, ?_⟩
    · show ((esBulkServiceFlush backend (armTicker s)).1).esBulkService ++ _ = _
      rw [hc1]
      rfl
    · show ((esBulkServiceFlush backend (armTicker s)).1).queueSizeInBytes + _ = _
      rw [hc2]
      exact Nat.zero_add _
    · show ((esBulkServiceFlush backend (armTicker s)).1).flushCalls = _
      rw [hc3, ha3]
  · intro hlt
    have hC : ¬ (armTicker s).queueSizeInBytes + msg.payload.length
        ≥ cfg.maxBatchSizeBytes := by
      rw [ha1]
      exact Nat.not_le.mpr hlt
    dsimp only
    rw [if_neg hC]
    exact ⟨by rw [ha2], by rw [ha1], ha3⟩

theorem index_tickerResets (cfg : Config) (backend : Backend) (s : IndexerState)
    (msg : Message) :
    (index cfg backend s msg).1.tickerResets
      = (if s.queueSizeInBytes = 0 then s.tickerResets + 1 else s.tickerResets) := by
  unfold index
  rcases msg.header with _ | hd
  · dsimp only
    split <;> rfl
  · dsimp only
    rcases hd.index with _ | idx
    · dsimp only
      split <;> rfl
    · dsimp only
      by_cases hz : s.queueSizeInBytes = 0 <;>
        simp only [hz, reduceIte] <;>
        split <;>
        first
          | exact (esBulkServiceFlush_untouched backend _).2.2.2.2.1
          | rfl

theorem index_shutdown (cfg : Config) (backend : Backend) (s : IndexerState)
    (msg : Message) :
    ((index cfg backend s msg).1).shutdown = s.shutdown := by
  unfold index
  rcases msg.header with _ | hd
  · dsimp only
    split <;> rfl
  · dsimp only
    rcases hd.index with _ | idx
    · dsimp only
      split <;> rfl
    · dsimp only
      split
      · split
        · exact (esBulkServiceFlush_untouched backend _).1
        · rfl
      · split
        · exact (esBulkServiceFlush_untouched backend _).1
        · rfl

theorem runRecvMsg_shutdown (cfg : Config) (backend : Backend) (s : IndexerState)
    (msg : Message) (s' : IndexerState)
    (h : runRecvMsg cfg backend s msg = some s') : s'.shutdown = s.shutdown := by
  unfold runRecvMsg at h
  rcases hh : msg.header with _ | hd
  · simp only [hh] at h
    exact Option.noConfusion h
  · simp only [hh] at h
    rcases hi : hd.index with _ | idx
    · simp only [hi, Option.some.injEq] at h
      rw [← h]
    · simp only [hi, Option.some.injEq] at h
      rw [← h]
      exact index_shutdown cfg backend s msg

theorem runStep_next_shutdown (cfg : Config) (backend : Backend)
    (s s' : IndexerState) (e : WorkerEvent)
    (h : runStep cfg backend s e = StepOut.next s') : s'.shutdown = s.shutdown := by
  cases e with
  | recv msg =>
    simp only [runStep] at h
    rcases hr : runRecvMsg cfg backend { s with q := s.q.drop 1 } msg with _ | s2
    · rw [hr] at h
      exact absurd h (by simp)
    · rw [hr] at h
      simp only [StepOut.next.injEq] at h
      rw [← h]
      exact runRecvMsg_shutdown cfg backend { s with q := s.q.drop 1 } msg s2 hr
  | closed =>
    simp only [runStep, StepOut.next.injEq] at h
    rw [← h]
  | tick =>
    simp only [runStep, StepOut.next.injEq] at h
    rw [← h]
    exact (esBulkServiceFlush_untouched backend s).1
  | shutdownSig =>
    exact absurd h (by simp [runStep])
  | idle =>
    simp only [runStep, StepOut.next.injEq] at h
    rw [← h]

theorem reachable_shutdown (cfg : Config) (backend : Backend)
    (s₁ s₂ : IndexerState) (h : Reachable cfg backend s₁ s₂) :
    s₂.shutdown = s₁.shutdown := by
  induction h with
  | refl => rfl
  | step e hr hs ih =>
    rw [runStep_next_shutdown cfg backend _ _ e hs, ih]
  | enq msg hr ih =>
    simpa [Q] using ih

/-- A backend that fails every submission with a transport error. -/
def errBackend : Backend := fun _ => Except.error "transport error"

/-- A state with a 3-byte document pending in the bulk service. -/
def pendingState : IndexerState :=
  { s0 with esBulkService := [mkBulkIndexRequest "idx" validHeader [1, 2, 3]],
            queueSizeInBytes := 3 }

/-- C1: the spec claims that after `Stop()` the worker loop receives the
shutdown signal, stops the timer, closes the queue, performs one final flush
and returns. The code cannot do this: `NewIndexer` never initializes the
`shutdown` field, so it stays a nil Go channel; `Stop`'s send on it blocks
forever, and in every state reachable from a fresh instance the select's
shutdown branch is never ready, so no enabled event ever makes `Run`
return (the return-and-final-flush path is exclusive to the shutdown
branch). -/
theorem C1_shutdown_signal_never_received (cfg : Config) (backend : Backend)
    (identifier : String) (clients : List Client) (s : IndexerState)
    (e : WorkerEvent) (s' : IndexerState)
    (hreach : Reachable cfg backend (newIndexer identifier clients) s)
    (hen : eventEnabled s e = true) :
    (newIndexer identifier clients).shutdown = none ∧
    stopSend s = none ∧
    eventEnabled s WorkerEvent.shutdownSig = false ∧
    runStep cfg backend s e ≠ StepOut.ret s' := by
  have hs : s.shutdown = none := by
    rw [reachable_shutdown cfg backend _ _ hreach]
    rfl
  refine ⟨rfl, ?_, ?_, ?_⟩
  · simp [stopSend, hs]
  · simp [eventEnabled, hs]
  · intro hret
    cases e with
    | recv msg =>
      simp only [runStep] at hret
      rcases hr : runRecvMsg cfg backend { s with q := s.q.drop 1 } msg with _ | s2 <;>
        rw [hr] at hret <;> exact StepOut.noConfusion hret
    | closed =>
      simp [runStep] at hret
    | tick =>
      simp [runStep] at hret
    | shutdownSig =>
      simp [eventEnabled, hs] at hen
    | idle =>
      simp [runStep] at hret

/-- C1 witness: a fresh instance itself is reachable, the idle branch is
always ready, and it does not make `Run` return. -/
theorem C1_shutdown_signal_never_received_witness :
    (newIndexer "indexer-1" [()]).shutdown = none ∧
    stopSend (newIndexer "indexer-1" [()]) = none ∧
    eventEnabled (newIndexer "indexer-1" [()]) WorkerEvent.shutdownSig = false ∧
    runStep defaultConfig okBackend (newIndexer "indexer-1" [()]) WorkerEvent.idle
      ≠ StepOut.ret (newIndexer "indexer-1" [()]) :=
  C1_shutdown_signal_never_received defaultConfig okBackend "indexer-1" [()]
    (newIndexer "indexer-1" [()]) WorkerEvent.idle (newIndexer "indexer-1" [()])
    (Reachable.refl _) rfl

/-- C5: after every flush attempt, success or transport failure, the bulk
builder and the tracked byte total are cleared; after a failed attempt the
items are gone, so an immediately following flush reports the empty-flush
error and hands nothing more to the backend (the failed items are never
resubmitted). -/
theorem C5_batch_cleared_after_every_flush_attempt
    (backend b2 : Backend) (e : String) (s : IndexerState)
    (hne : s.esBulkService ≠ []) :
    ((esBulkServiceFlush backend s).1.esBulkService = [] ∧
     (esBulkServiceFlush backend s).1.queueSizeInBytes = 0) ∧
    (esBulkServiceFlush (fun _ => Except.error e) s).2 = (none, some e) ∧
    (esBulkServiceFlush (fun _ => Except.error e) s).1.esBulkService = [] ∧
    (esBulkServiceFlush b2 ((esBulkServiceFlush (fun _ => Except.error e) s).1)).2
      = (none, some (nothingQueuedMsg s.identifier)) ∧
    (esBulkServiceFlush b2 ((esBulkServiceFlush (fun _ => Except.error e) s).1)).1.submitted
      = ((esBulkServiceFlush (fun _ => Except.error e) s).1).submitted := by
  have hlen : ¬ s.esBulkService.length = 0 := by
    simpa [List.length_eq_zero] using hne
  have hfail : esBulkServiceFlush (fun _ => Except.error e) s =
      ({ s with queueSizeInBytes := 0, flushCalls := s.flushCalls + 1,
                esBulkService := ([] : List BulkIndexRequest),
                submitted := s.submitted ++ [s.esBulkService] },
       none, some e) := by
    unfold esBulkServiceFlush bulkServiceDo
    simp [hlen]
  refine ⟨⟨(esBulkServiceFlush_clears backend s).1,
          (esBulkServiceFlush_clears backend s).2.1⟩, ?_, ?_, ?_, ?_⟩ <;>
    rw [hfail] <;>
    try rw [esBulkServiceFlush_empty b2 _ rfl]

/-- C5 witness: a pending 3-byte batch, a failing first flush, a second flush
behind it. -/
theorem C5_batch_cleared_after_every_flush_attempt_witness :
    ((esBulkServiceFlush errBackend pendingState).1.esBulkService = [] ∧
     (esBulkServiceFlush errBackend pendingState).1.queueSizeInBytes = 0) ∧
    (esBulkServiceFlush (fun _ => Except.error "transport error") pendingState).2
      = (none, some "transport error") ∧
    (esBulkServiceFlush (fun _ => Except.error "transport error") pendingState).1.esBulkService
      = [] ∧
    (esBulkServiceFlush okBackend
        ((esBulkServiceFlush (fun _ => Except.error "transport error") pendingState).1)).2
      = (none, some (nothingQueuedMsg pendingState.identifier)) ∧
    (esBulkServiceFlush okBackend
        ((esBulkServiceFlush (fun _ => Except.error "transport error") pendingState).1)).1.submitted
      = ((esBulkServiceFlush (fun _ => Except.error "transport error") pendingState).1).submitted :=
  C5_batch_cleared_after_every_flush_attempt errBackend okBackend "transport error"
    pendingState (by decide)

/-- C7: every flush zeroes the tracked byte total whatever the backend does,
and a flush with zero pending items performs no remote submission: its
entire outcome is independent of the backend, the submitted trace does not
grow, and it returns the non-fatal nothing-to-flush error value. -/
theorem C7_flush_resets_bytes_and_empty_flush_is_local (backend b1 b2 : Backend)
    (s t : IndexerState) (hempty : t.esBulkService = []) :
    (esBulkServiceFlush backend s).1.queueSizeInBytes = 0 ∧
    esBulkServiceFlush b1 t = esBulkServiceFlush b2 t ∧
    (esBulkServiceFlush b1 t).2 = (none, some (nothingQueuedMsg t.identifier)) ∧
    (esBulkServiceFlush b1 t).1.submitted = t.submitted := by
  rw [esBulkServiceFlush_empty b1 t hempty, esBulkServiceFlush_empty b2 t hempty]
  exact ⟨(esBulkServiceFlush_clears backend s).2.1, rfl, rfl, rfl⟩

/-- C7 witness: a pending batch for the reset conjunct, a fresh (empty)
instance for the empty-flush conjuncts. -/
theorem C7_flush_resets_bytes_and_empty_flush_is_local_witness :
    (esBulkServiceFlush errBackend pendingState).1.queueSizeInBytes = 0 ∧
    esBulkServiceFlush okBackend s0 = esBulkServiceFlush errBackend s0 ∧
    (esBulkServiceFlush okBackend s0).2 = (none, some (nothingQueuedMsg s0.identifier)) ∧
    (esBulkServiceFlush okBackend s0).1.submitted = s0.submitted :=
  C7_flush_resets_bytes_and_empty_flush_is_local errBackend okBackend errBackend
    pendingState s0 rfl

/-- C2 counterexample: the current revision's `Q` performs no validation.
For the concrete message with no header (hence no target index), `Q`
returns nil rather than a descriptive rejection error, and the message is
placed on the inbound queue. -/
theorem C2_Q_returns_no_error_counterexample :
    (Q s0 { header := none, payload := [] }).2 = none ∧
    (Q s0 { header := none, payload := [] }).1.q =
      [{ header := none, payload := [] }] :=
  ⟨rfl, rfl⟩

/-- C2 (amended): `Q` enqueues every message unconditionally and returns nil
(no rejection). An invalid message (nil header, or nil index in the header)
nevertheless never enters the batch: `index` rejects it with a descriptive
error and leaves the bulk service untouched, and any non-panicking worker
handling of it leaves the bulk service untouched as well, so it never
appears in a flush's submitted items. -/
theorem C2_Q_no_validation_but_batch_protected
    (cfg : Config) (backend : Backend) (s : IndexerState) (msg : Message)
    (s' : IndexerState)
    (hinv : msg.header = none ∨ ∃ hd, msg.header = some hd ∧ hd.index = none)
    (hw : runRecvMsg cfg backend s msg = some s') :
    (Q s msg).2 = none ∧
    (Q s msg).1.q = s.q ++ [msg] ∧
    (index cfg backend s msg).2.isSome = true ∧
    (index cfg backend s msg).1.esBulkService = s.esBulkService ∧
    s'.esBulkService = s.esBulkService := by
  refine ⟨rfl, rfl, ?_, ?_, ?_⟩ <;>
    rcases hinv with hh | ⟨hd, hh, hi⟩
  · rw [index_noHeader cfg backend s msg hh]
    rfl
  · rw [index_noIndex cfg backend s msg hd hh hi]
    rfl
  · rw [index_noHeader cfg backend s msg hh]
    dsimp only
    split <;> rfl
  · rw [index_noIndex cfg backend s msg hd hh hi]
    dsimp only
    split <;> rfl
  · have hw' : runRecvMsg cfg backend s msg = none := by
      simp [runRecvMsg, hh]
    rw [hw'] at hw
    exact Option.noConfusion hw
  · have hw' : runRecvMsg cfg backend s msg = some s := by
      simp [runRecvMsg, hh, hi]
    rw [hw'] at hw
    simp only [Option.some.injEq] at hw
    rw [← hw]

/-- C2 witness: a message whose header carries no index is enqueued with no
error, rejected by `index`, and dropped by the worker. -/
theorem C2_Q_no_validation_but_batch_protected_witness :
    (Q s0 { header := some { id := none, index := none }, payload := [7] }).2 = none ∧
    (Q s0 { header := some { id := none, index := none }, payload := [7] }).1.q =
      s0.q ++ [{ header := some { id := none, index := none }, payload := [7] }] ∧
    (index defaultConfig okBackend s0
      { header := some { id := none, index := none }, payload := [7] }).2.isSome = true ∧
    (index defaultConfig okBackend s0
      { header := some { id := none, index := none }, payload := [7] }).1.esBulkService
      = s0.esBulkService ∧
    s0.esBulkService = s0.esBulkService :=
  C2_Q_no_validation_but_batch_protected defaultConfig okBackend s0
    { header := some { id := none, index := none }, payload := [7] } s0
    (Or.inr ⟨{ id := none, index := none }, rfl, rfl⟩) rfl

/-- C6 counterexample: a dequeued message with a nil header makes the worker
read `msg.Header.Index` through the nil pointer: the iteration panics
instead of logging and dropping the message. -/
theorem C6_nil_header_crashes_worker_counterexample :
    runRecvMsg defaultConfig okBackend s0 { header := none, payload := [] } = none ∧
    runStep defaultConfig okBackend s0
      (WorkerEvent.recv { header := none, payload := [] }) = StepOut.panicked :=
  ⟨rfl, rfl⟩

/-- C6 (amended): a dequeued message with a header whose index is nil is
logged and dropped without crashing: the state is unchanged apart from the
dequeue, nothing enters the batch, and the loop continues. A message with a
nil header, by contrast, is not validated but dereferenced: the worker
panics (see the counterexample). -/
theorem C6_nil_index_dropped_without_crash
    (cfg : Config) (backend : Backend) (s : IndexerState) (msg : Message)
    (hd : MessageHeader) (hh : msg.header = some hd) (hi : hd.index = none) :
    runRecvMsg cfg backend s msg = some s ∧
    runStep cfg backend s (WorkerEvent.recv msg)
      = StepOut.next { s with q := s.q.drop 1 } := by
  have h1 : runRecvMsg cfg backend { s with q := s.q.tail } msg
      = some { s with q := s.q.tail } := by
    simp [runRecvMsg, hh, hi]
  constructor
  · simp [runRecvMsg, hh, hi]
  · simp [runStep, h1]

/-- C6 witness: a concrete nil-index message is dropped and the loop
continues. -/
theorem C6_nil_index_dropped_without_crash_witness :
    runRecvMsg defaultConfig okBackend s0
      { header := some { id := none, index := none }, payload := [7] } = some s0 ∧
    runStep defaultConfig okBackend s0
      (WorkerEvent.recv { header := some { id := none, index := none }, payload := [7] })
      = StepOut.next { s0 with q := s0.q.drop 1 } :=
  C6_nil_index_dropped_without_crash defaultConfig okBackend s0
    { header := some { id := none, index := none }, payload := [7] }
    { id := none, index := none } rfl rfl

/-- C8 counterexample: with the inbound queue closed and drained (the state
after `cleanup`), the closed-channel branch is ready, yet the iteration does
not return from `Run`: the `return nil` of this branch is commented out in
the current revision, so the loop continues with the state unchanged. -/
theorem C8_closed_queue_does_not_return_counterexample :
    eventEnabled (cleanup s0) WorkerEvent.closed = true ∧
    runStep defaultConfig okBackend (cleanup s0) WorkerEvent.closed
      = StepOut.next (cleanup s0) :=
  ⟨rfl, rfl⟩

/-- C8 (amended): on queue closure the current revision's worker only logs
and keeps looping, with the state (including the remaining partial batch)
unchanged and no flush; `Run` returns exclusively from the shutdown
branch. -/
theorem C8_run_returns_only_on_shutdown (cfg : Config) (backend : Backend)
    (s s' : IndexerState) (e : WorkerEvent)
    (hret : runStep cfg backend s e = StepOut.ret s') :
    e = WorkerEvent.shutdownSig ∧
    runStep cfg backend s WorkerEvent.closed = StepOut.next s := by
  refine ⟨?_, rfl⟩
  cases e with
  | recv msg =>
    simp only [runStep] at hret
    rcases hr : runRecvMsg cfg backend { s with q := s.q.drop 1 } msg with _ | s2 <;>
      rw [hr] at hret <;> exact StepOut.noConfusion hret
  | closed => simp [runStep] at hret
  | tick => simp [runStep] at hret
  | shutdownSig => rfl
  | idle => simp [runStep] at hret

/-- C8 witness: the shutdown branch is the one that returns. -/
theorem C8_run_returns_only_on_shutdown_witness :
    WorkerEvent.shutdownSig = WorkerEvent.shutdownSig ∧
    runStep defaultConfig okBackend s0 WorkerEvent.closed = StepOut.next s0 :=
  C8_run_returns_only_on_shutdown defaultConfig okBackend s0
    ((esBulkServiceFlush okBackend
      (cleanup { s0 with shutdown := Option.map (List.drop 1) s0.shutdown })).1)
    WorkerEvent.shutdownSig rfl

/-- The bulk index request a 40-byte message produces. -/
def fortyByteReq : BulkIndexRequest :=
  mkBulkIndexRequest "idx" validHeader (List.replicate 40 0)

/-- A valid message whose payload is 100 bytes. -/
def hundredByteMsg : Message :=
  { header := some validHeader, payload := List.replicate 100 0 }

/-- A state holding one zero-byte document: the batch is nonempty while the
tracked byte total is zero. -/
def zeroByteBatchState : IndexerState :=
  { s0 with esBulkService := [mkBulkIndexRequest "idx" validHeader []] }

/-- C3: on a valid message the size trigger compares the existing byte total
plus the incoming payload's size against the configured maximum; when the
prospective size meets or exceeds it, a flush runs first and the message is
then appended to the now-empty batch (never dropped); otherwise the message
is appended to the existing batch with no flush. Concretely, with maximum
batch size 100 and three 40-byte messages, exactly one flush occurs, it
submits exactly the first two messages, and the third stays pending. -/
theorem C3_size_trigger_flush_before_append
    (cfg : Config) (backend : Backend) (s : IndexerState) (msg : Message)
    (hd : MessageHeader) (idx : String)
    (hh : msg.header = some hd) (hi : hd.index = some idx) :
    (s.queueSizeInBytes + msg.payload.length ≥ cfg.maxBatchSizeBytes →
      (index cfg backend s msg).2 = none ∧
      (index cfg backend s msg).1.esBulkService
        = [mkBulkIndexRequest idx hd msg.payload] ∧
      (index cfg backend s msg).1.queueSizeInBytes = msg.payload.length ∧
      (index cfg backend s msg).1.flushCalls = s.flushCalls + 1) ∧
    (s.queueSizeInBytes + msg.payload.length < cfg.maxBatchSizeBytes →
      (index cfg backend s msg).2 = none ∧
      (index cfg backend s msg).1.esBulkService
        = s.esBulkService ++ [mkBulkIndexRequest idx hd msg.payload] ∧
      (index cfg backend s msg).1.queueSizeInBytes
        = s.queueSizeInBytes + msg.payload.length ∧
      (index cfg backend s msg).1.flushCalls = s.flushCalls) ∧
    (c3s3.flushCalls = 1 ∧
     c3s3.submitted = [[fortyByteReq, fortyByteReq]] ∧
     c3s3.esBulkService = [fortyByteReq] ∧
     c3s3.queueSizeInBytes = 40) := by
  obtain ⟨h0, h1, h2⟩ := index_valid_general cfg backend s msg hd idx hh hi
  exact ⟨fun hge => ⟨h0, h1 hge⟩, fun hlt => ⟨h0, h2 hlt⟩, by decide⟩

/-- C3 witness: the 40-byte message against the 100-byte maximum from the
fresh state (the below-threshold branch applies: 0 + 40 < 100). -/
theorem C3_size_trigger_flush_before_append_witness :
    (s0.queueSizeInBytes + fortyByteMsg.payload.length ≥ cfg100.maxBatchSizeBytes →
      (index cfg100 okBackend s0 fortyByteMsg).2 = none ∧
      (index cfg100 okBackend s0 fortyByteMsg).1.esBulkService
        = [mkBulkIndexRequest "idx" validHeader fortyByteMsg.payload] ∧
      (index cfg100 okBackend s0 fortyByteMsg).1.queueSizeInBytes
        = fortyByteMsg.payload.length ∧
      (index cfg100 okBackend s0 fortyByteMsg).1.flushCalls = s0.flushCalls + 1) ∧
    (s0.queueSizeInBytes + fortyByteMsg.payload.length < cfg100.maxBatchSizeBytes →
      (index cfg100 okBackend s0 fortyByteMsg).2 = none ∧
      (index cfg100 okBackend s0 fortyByteMsg).1.esBulkService
        = s0.esBulkService ++ [mkBulkIndexRequest "idx" validHeader fortyByteMsg.payload] ∧
      (index cfg100 okBackend s0 fortyByteMsg).1.queueSizeInBytes
        = s0.queueSizeInBytes + fortyByteMsg.payload.length ∧
      (index cfg100 okBackend s0 fortyByteMsg).1.flushCalls = s0.flushCalls) ∧
    (c3s3.flushCalls = 1 ∧
     c3s3.submitted = [[fortyByteReq, fortyByteReq]] ∧
     c3s3.esBulkService = [fortyByteReq] ∧
     c3s3.queueSizeInBytes = 40) :=
  C3_size_trigger_flush_before_append cfg100 okBackend s0 fortyByteMsg
    validHeader "idx" rfl rfl

/-- C9: a valid message whose payload alone meets the configured maximum
while the batch is empty makes `index` flush the empty batch (the flush is
the local nothing-to-flush error and submits nothing to the backend) and
then still append the message: it is never rejected for its size, and the
resulting batch is exactly that message with the byte total equal to its
payload size. -/
theorem C9_oversized_message_never_rejected
    (cfg : Config) (backend : Backend) (s : IndexerState) (msg : Message)
    (hd : MessageHeader) (idx : String)
    (hh : msg.header = some hd) (hi : hd.index = some idx)
    (hempty : s.esBulkService = []) (hzero : s.queueSizeInBytes = 0)
    (hbig : msg.payload.length ≥ cfg.maxBatchSizeBytes) :
    (index cfg backend s msg).2 = none ∧
    (index cfg backend s msg).1.esBulkService
      = [mkBulkIndexRequest idx hd msg.payload] ∧
    (index cfg backend s msg).1.queueSizeInBytes = msg.payload.length ∧
    (index cfg backend s msg).1.flushCalls = s.flushCalls + 1 ∧
    (index cfg backend s msg).1.submitted = s.submitted ∧
    (esBulkServiceFlush backend (armTicker s)).2
      = (none, some (nothingQueuedMsg s.identifier)) := by
  obtain ⟨h0, h1, _⟩ := index_valid_general cfg backend s msg hd idx hh hi
  have hge : s.queueSizeInBytes + msg.payload.length ≥ cfg.maxBatchSizeBytes := by
    rw [hzero]
    simpa using hbig
  obtain ⟨e1, e2, e3⟩ := h1 hge
  have hae : (armTicker s).esBulkService = [] := by
    rw [(armTicker_fields s).2.1, hempty]
  refine ⟨h0, e1, e2, e3, ?_, ?_⟩
  · rw [index_result cfg backend s msg hd idx hh hi]
    have hC : (armTicker s).queueSizeInBytes + msg.payload.length
        ≥ cfg.maxBatchSizeBytes := by
      rw [(armTicker_fields s).1]
      exact hge
    dsimp only
    rw [if_pos hC, esBulkServiceFlush_empty backend _ hae]
    exact (armTicker_fields s).2.2.2.1
  · rw [esBulkServiceFlush_empty backend _ hae, (armTicker_fields s).2.2.2.2]

/-- C9 witness: a 100-byte message against the 100-byte maximum from the
fresh (empty) state. -/
theorem C9_oversized_message_never_rejected_witness :
    (index cfg100 okBackend s0 hundredByteMsg).2 = none ∧
    (index cfg100 okBackend s0 hundredByteMsg).1.esBulkService
      = [mkBulkIndexRequest "idx" validHeader hundredByteMsg.payload] ∧
    (index cfg100 okBackend s0 hundredByteMsg).1.queueSizeInBytes
      = hundredByteMsg.payload.length ∧
    (index cfg100 okBackend s0 hundredByteMsg).1.flushCalls = s0.flushCalls + 1 ∧
    (index cfg100 okBackend s0 hundredByteMsg).1.submitted = s0.submitted ∧
    (esBulkServiceFlush okBackend (armTicker s0)).2
      = (none, some (nothingQueuedMsg s0.identifier)) :=
  C9_oversized_message_never_rejected cfg100 okBackend s0 hundredByteMsg
    validHeader "idx" rfl rfl rfl rfl (by decide)

/-- C10: `index` rearms the flush ticker exactly when the tracked byte total
is zero, and does so before validating the header: a message later rejected
for a missing header or a missing index still rearms the ticker while adding
nothing to the batch; a state whose batch holds only zero-byte documents
(byte total zero, batch nonempty) still counts as empty for arming; and no
rearm happens when the byte total is nonzero. -/
theorem C10_ticker_rearm_before_validation
    (cfg : Config) (backend : Backend) (s t u : IndexerState)
    (msg m2 m3 : Message) (hd : MessageHeader)
    (hzero : s.queueSizeInBytes = 0)
    (hinv : msg.header = none ∨ (msg.header = some hd ∧ hd.index = none))
    (hzt : t.queueSizeInBytes = 0) (hne : t.esBulkService ≠ [])
    (hnz : u.queueSizeInBytes ≠ 0) :
    ((index cfg backend s msg).2.isSome = true ∧
     (index cfg backend s msg).1.tickerResets = s.tickerResets + 1 ∧
     (index cfg backend s msg).1.esBulkService = s.esBulkService) ∧
    ((index cfg backend t m2).1.tickerResets = t.tickerResets + 1 ∧
     t.esBulkService ≠ []) ∧
    (index cfg backend u m3).1.tickerResets = u.tickerResets := by
  refine ⟨?_, ⟨?_, hne⟩, ?_⟩
  · rcases hinv with hh | ⟨hh, hi⟩
    · rw [index_noHeader cfg backend s msg hh]
      exact ⟨rfl, by simp [hzero], by simp [hzero]⟩
    · rw [index_noIndex cfg backend s msg hd hh hi]
      exact ⟨rfl, by simp [hzero], by simp [hzero]⟩
  · rw [index_tickerResets cfg backend t m2]
    simp [hzt]
  · rw [index_tickerResets cfg backend u m3]
    simp [hnz]

/-- C10 witness: a headerless message on the fresh state, a zero-byte-batch
state, and a state with three pending bytes. -/
theorem C10_ticker_rearm_before_validation_witness :
    ((index defaultConfig okBackend s0 { header := none, payload := [] }).2.isSome = true ∧
     (index defaultConfig okBackend s0
        { header := none, payload := [] }).1.tickerResets = s0.tickerResets + 1 ∧
     (index defaultConfig okBackend s0
        { header := none, payload := [] }).1.esBulkService = s0.esBulkService) ∧
    ((index defaultConfig okBackend zeroByteBatchState fortyByteMsg).1.tickerResets
       = zeroByteBatchState.tickerResets + 1 ∧
     zeroByteBatchState.esBulkService ≠ []) ∧
    (index defaultConfig okBackend pendingState fortyByteMsg).1.tickerResets
      = pendingState.tickerResets :=
  C10_ticker_rearm_before_validation defaultConfig okBackend s0 zeroByteBatchState
    pendingState { header := none, payload := [] } fortyByteMsg fortyByteMsg
    { id := none, index := none } rfl (Or.inl rfl) rfl (by decide) (by decide)

/-- C4 counterexample: with no clients configured, `GetClient` does return
its error (and the spec-described construction fails), but `NewIndexer`
still produces a fully constructed instance whose client handle is nil: the
error does not propagate out of construction. -/
theorem C4_constructor_swallows_provider_error_counterexample :
    GetClient ([] : List Client)
      = Except.error "failed to retrieve elasticsearch client" ∧
    newIndexerSpecDescribed "indexer-1" []
      = Except.error "failed to retrieve elasticsearch client" ∧
    (newIndexer "indexer-1" []).client = none ∧
    (newIndexer "indexer-1" []).q = [] ∧
    (newIndexer "indexer-1" []).esBulkService = [] ∧
    (newIndexer "indexer-1" []).queueSizeInBytes = 0 :=
  ⟨rfl, rfl, rfl, rfl, rfl, rfl⟩

/-- C4 (amended): `GetClient` reports the error when no clients are
configured, but `NewIndexer` discards it (`indexer.client, _ = GetClient()`):
construction has no error result, always returns an instance, and the client
handle is whatever `GetClient` produced — nil when the provider failed. -/
theorem C4_constructor_ignores_provider_error
    (identifier : String) (clients : List Client) :
    GetClient ([] : List Client)
      = Except.error "failed to retrieve elasticsearch client" ∧
    (newIndexer identifier clients).client = (GetClient clients).toOption ∧
    (newIndexer identifier []).client = none :=
  ⟨rfl, rfl, rfl⟩

end ElasticsearchUtil
